import Mathlib

/-!
Verification of the plusminus value-with-uncertainty library.

The source is a single Rust file defining `Uncertainty` (a tagged error-bar
descriptor with `low`/`high` magnitudes, a display `precision`, and an
`Absolute`/`Relative` variant tag) and `Measure` (an `f64` value paired with
an `Uncertainty`), with conversion between the two variants and the four
arithmetic operators propagating uncertainty.

The embedding below mirrors the source functions one-for-one.  `f64` is
modelled as `ℚ` (exact arithmetic; none of the algebraic claims depends on
rounding), except for the division-by-zero claim, which is settled against a
second model `F64` that carries the IEEE special values `inf`, `neginf` and
`nan` explicitly (signed zero is not distinguished: all finite values are
rationals).  Rust code that aborts (the mismatched-variant combination arms)
is modelled as `Except String`, carrying the abort message.
-/

namespace PlusMinus

/-- `const DEFAULT_PRECISION: usize = 5;` -/
def DEFAULT_PRECISION : Nat := 5

/-- `enum UncertaintyVariant { Absolute, Relative }` -/
inductive UncertaintyVariant where
  | Absolute
  | Relative
deriving DecidableEq

/-- `struct Uncertainty { low: f64, high: f64, precision: usize, variant: UncertaintyVariant }` -/
structure Uncertainty where
  low : ℚ
  high : ℚ
  precision : Nat
  variant : UncertaintyVariant
deriving DecidableEq

/-- `struct Measure { value: f64, uncertainty: Uncertainty }` -/
structure Measure where
  value : ℚ
  uncertainty : Uncertainty
deriving DecidableEq

/-- `Uncertainty::null`: zero magnitudes, default precision, Absolute variant. -/
def Uncertainty.null : Uncertainty :=
  { low := 0, high := 0, precision := DEFAULT_PRECISION, variant := .Absolute }

/-- `Uncertainty::symmetric_abs`: both magnitudes `value.abs()`, Absolute, rest from `null`. -/
def Uncertainty.symmetric_abs (value : ℚ) : Uncertainty :=
  { Uncertainty.null with low := |value|, high := |value|, variant := .Absolute }

/-- `Uncertainty::symmetric_rel`: both magnitudes `value.abs()`, Relative, rest from `null`. -/
def Uncertainty.symmetric_rel (value : ℚ) : Uncertainty :=
  { Uncertainty.null with low := |value|, high := |value|, variant := .Relative }

/-- `Uncertainty::non_symmetric`: given magnitudes (not absolute-valued), rest from `null`. -/
def Uncertainty.non_symmetric (low high : ℚ) : Uncertainty :=
  { Uncertainty.null with low := low, high := high }

/-- `Uncertainty::with_precision`: replace the precision, keep everything else. -/
def Uncertainty.with_precision (self : Uncertainty) (precision : Nat) : Uncertainty :=
  { self with precision := precision }

/-- `Uncertainty::to_absolute(value)`: Relative becomes Absolute with magnitudes
`(m / 100) * value.abs()`; Absolute is returned unchanged. -/
def Uncertainty.to_absolute (self : Uncertainty) (value : ℚ) : Uncertainty :=
  match self.variant with
  | .Relative =>
      { self with
        low := (self.low / 100) * |value|
        high := (self.high / 100) * |value|
        variant := .Absolute }
  | .Absolute => self

/-- `Uncertainty::to_relative(value)`: Absolute becomes Relative with magnitudes
`(m - value.abs()).abs() / value.abs() * 100.` (exactly as in the source, which
subtracts `value.abs()` from the magnitude before dividing); Relative is
returned unchanged. -/
def Uncertainty.to_relative (self : Uncertainty) (value : ℚ) : Uncertainty :=
  match self.variant with
  | .Absolute =>
      { self with
        low := abs (self.low - |value|) / |value| * 100
        high := abs (self.high - |value|) / |value| * 100
        variant := .Relative }
  | .Relative => self

/-- Name of a variant as Rust's `Debug` derive prints it. -/
def UncertaintyVariant.name : UncertaintyVariant → String
  | .Absolute => "Absolute"
  | .Relative => "Relative"

/-- Rust `{:#?}` pretty-debug rendering of an `Uncertainty` (numeric fields are
rendered as rationals rather than in `f64` decimal notation; only the structure
and the variant name matter for the claims). -/
def Uncertainty.debugFmt (self : Uncertainty) : String :=
  "Uncertainty \x7b\n    low: " ++ toString self.low ++
  ",\n    high: " ++ toString self.high ++
  ",\n    precision: " ++ toString self.precision ++
  ",\n    variant: " ++ self.variant.name ++ ",\n\x7d"

/-- The abort message of `impl Add for Uncertainty` on a non-(Absolute, Absolute)
pair: the format string interpolates both operands with `{:#?}`. -/
def Uncertainty.addPanicMsg (self rhs : Uncertainty) : String :=
  "Please convert both uncertainty to its absolute variants apply additive propagation, " ++
  self.debugFmt ++ " + " ++ rhs.debugFmt

/-- The abort message of `impl Mul for Uncertainty` on a non-(Relative, Relative)
pair: a fixed string, no interpolation. -/
def Uncertainty.mulPanicMsg : String :=
  "Please convert both uncertainty to its relative variant to apply multiplicative propagation"

/-- `impl Add for Uncertainty`: defined only on (Absolute, Absolute), where it
sums the magnitudes, takes the `min` of the precisions and stays Absolute;
every other variant pair aborts (modelled as `.error` with the abort message). -/
def Uncertainty.add (self rhs : Uncertainty) : Except String Uncertainty :=
  match self.variant, rhs.variant with
  | .Absolute, .Absolute =>
      .ok { low := self.low + rhs.low
            high := self.high + rhs.high
            precision := min self.precision rhs.precision
            variant := .Absolute }
  | _, _ => .error (Uncertainty.addPanicMsg self rhs)

/-- `impl Mul for Uncertainty`: defined only on (Relative, Relative), where it
sums the magnitudes, takes the `max` of the precisions and stays Relative;
every other variant pair aborts. -/
def Uncertainty.mul (self rhs : Uncertainty) : Except String Uncertainty :=
  match self.variant, rhs.variant with
  | .Relative, .Relative =>
      .ok { low := self.low + rhs.low
            high := self.high + rhs.high
            precision := max self.precision rhs.precision
            variant := .Relative }
  | _, _ => .error Uncertainty.mulPanicMsg

/-- `Measure::scalar`: value with `Uncertainty::null()`. -/
def Measure.scalar (value : ℚ) : Measure :=
  { value := value, uncertainty := Uncertainty.null }

/-- `Measure::with_rel_err`: same value, uncertainty replaced by `symmetric_rel(err)`. -/
def Measure.with_rel_err (self : Measure) (err : ℚ) : Measure :=
  { value := self.value, uncertainty := Uncertainty.symmetric_rel err }

/-- `Measure::with_abs_err`: same value, uncertainty replaced by `symmetric_abs(err)`. -/
def Measure.with_abs_err (self : Measure) (err : ℚ) : Measure :=
  { value := self.value, uncertainty := Uncertainty.symmetric_abs err }

/-- `Measure::with_precision`: same value, uncertainty precision replaced. -/
def Measure.with_precision (self : Measure) (precision : Nat) : Measure :=
  { value := self.value, uncertainty := self.uncertainty.with_precision precision }

/-- `Measure::resolve_high_low_limits`: converts the uncertainty to Absolute with
this measure's own value and returns `(value + unc.high, value - unc.low)` —
the high limit FIRST, then the low limit, exactly as in the source. -/
def Measure.resolve_high_low_limits (self : Measure) : ℚ × ℚ :=
  let unc := self.uncertainty.to_absolute self.value
  (self.value + unc.high, self.value - unc.low)

/-- `impl Add for Measure`: values sum; uncertainties are converted to Absolute
(each with its own operand's value) and combined with `Uncertainty.add`. -/
def Measure.add (self rhs : Measure) : Except String Measure :=
  (Uncertainty.add (self.uncertainty.to_absolute self.value)
      (rhs.uncertainty.to_absolute rhs.value)).map
    (fun u => { value := self.value + rhs.value, uncertainty := u })

/-- `impl Sub for Measure`: like `add` but the values are subtracted. -/
def Measure.sub (self rhs : Measure) : Except String Measure :=
  (Uncertainty.add (self.uncertainty.to_absolute self.value)
      (rhs.uncertainty.to_absolute rhs.value)).map
    (fun u => { value := self.value - rhs.value, uncertainty := u })

/-- `impl Mul for Measure`: values multiply; uncertainties are converted to
Relative (each with its own operand's value) and combined with `Uncertainty.mul`. -/
def Measure.mul (self rhs : Measure) : Except String Measure :=
  (Uncertainty.mul (self.uncertainty.to_relative self.value)
      (rhs.uncertainty.to_relative rhs.value)).map
    (fun u => { value := self.value * rhs.value, uncertainty := u })

/-- `impl Div for Measure`: like `mul` but the values are divided. -/
def Measure.div (self rhs : Measure) : Except String Measure :=
  (Uncertainty.mul (self.uncertainty.to_relative self.value)
      (rhs.uncertainty.to_relative rhs.value)).map
    (fun u => { value := self.value / rhs.value, uncertainty := u })

/-! ### Substring containment

`containsStr needle hay` decides whether `needle` occurs contiguously inside
`hay`; it is used to state that an abort message does (or does not) mention an
operand's variant name. -/

/-- Boolean test that the first character list is a prefix of the second. -/
def isPref : List Char → List Char → Bool
  | [], _ => true
  | _ :: _, [] => false
  | a :: as, b :: bs => a == b && isPref as bs

/-- Boolean test that the first character list occurs contiguously in the second. -/
def hasSeg (needle : List Char) : List Char → Bool
  | [] => isPref needle []
  | b :: bs => isPref needle (b :: bs) || hasSeg needle bs

/-- Boolean test that `needle` occurs contiguously inside `hay`. -/
def containsStr (needle hay : String) : Bool :=
  hasSeg needle.data hay.data

theorem isPref_self_append (n t : List Char) : isPref n (n ++ t) = true := by
  induction n with
  | nil => rfl
  | cons a as ih => simp [isPref, ih]

theorem hasSeg_nil_needle (l : List Char) : hasSeg [] l = true := by
  cases l with
  | nil => rfl
  | cons b bs => simp [hasSeg, isPref]

theorem hasSeg_self_append (n t : List Char) : hasSeg n (n ++ t) = true := by
  cases n with
  | nil => exact hasSeg_nil_needle t
  | cons a as =>
    have h : isPref (a :: as) (a :: (as ++ t)) = true := isPref_self_append (a :: as) t
    simp [hasSeg, h]

theorem hasSeg_append_left (n x l : List Char) (h : hasSeg n l = true) :
    hasSeg n (x ++ l) = true := by
  induction x with
  | nil => simpa using h
  | cons a xs ih => simp [hasSeg, ih]

theorem containsStr_middle (s x y : String) : containsStr s (x ++ (s ++ y)) = true := by
  unfold containsStr
  rw [String.data_append, String.data_append]
  exact hasSeg_append_left _ _ _ (hasSeg_self_append _ _)

/-! ### Structural facts about the conversions and operators -/

theorem Uncertainty.to_absolute_variant (u : Uncertainty) (v : ℚ) :
    (u.to_absolute v).variant = .Absolute := by
  cases u with
  | mk low high p var => cases var <;> rfl

theorem Uncertainty.to_relative_variant (u : Uncertainty) (v : ℚ) :
    (u.to_relative v).variant = .Relative := by
  cases u with
  | mk low high p var => cases var <;> rfl

theorem Uncertainty.to_absolute_precision (u : Uncertainty) (v : ℚ) :
    (u.to_absolute v).precision = u.precision := by
  cases u with
  | mk low high p var => cases var <;> rfl

theorem Uncertainty.to_relative_precision (u : Uncertainty) (v : ℚ) :
    (u.to_relative v).precision = u.precision := by
  cases u with
  | mk low high p var => cases var <;> rfl

theorem Uncertainty.add_abs_abs (x y : Uncertainty)
    (hx : x.variant = .Absolute) (hy : y.variant = .Absolute) :
    Uncertainty.add x y =
      .ok { low := x.low + y.low, high := x.high + y.high,
            precision := min x.precision y.precision, variant := .Absolute } := by
  unfold Uncertainty.add
  rw [hx, hy]

theorem Uncertainty.mul_rel_rel (x y : Uncertainty)
    (hx : x.variant = .Relative) (hy : y.variant = .Relative) :
    Uncertainty.mul x y =
      .ok { low := x.low + y.low, high := x.high + y.high,
            precision := max x.precision y.precision, variant := .Relative } := by
  unfold Uncertainty.mul
  rw [hx, hy]

theorem Measure.add_eq (a b : Measure) :
    Measure.add a b =
      .ok { value := a.value + b.value
            uncertainty :=
              { low := (a.uncertainty.to_absolute a.value).low +
                  (b.uncertainty.to_absolute b.value).low
                high := (a.uncertainty.to_absolute a.value).high +
                  (b.uncertainty.to_absolute b.value).high
                precision := min a.uncertainty.precision b.uncertainty.precision
                variant := .Absolute } } := by
  unfold Measure.add
  rw [Uncertainty.add_abs_abs _ _ (Uncertainty.to_absolute_variant _ _)
    (Uncertainty.to_absolute_variant _ _)]
  simp [Except.map, Uncertainty.to_absolute_precision]

theorem Measure.sub_eq (a b : Measure) :
    Measure.sub a b =
      .ok { value := a.value - b.value
            uncertainty :=
              { low := (a.uncertainty.to_absolute a.value).low +
                  (b.uncertainty.to_absolute b.value).low
                high := (a.uncertainty.to_absolute a.value).high +
                  (b.uncertainty.to_absolute b.value).high
                precision := min a.uncertainty.precision b.uncertainty.precision
                variant := .Absolute } } := by
  unfold Measure.sub
  rw [Uncertainty.add_abs_abs _ _ (Uncertainty.to_absolute_variant _ _)
    (Uncertainty.to_absolute_variant _ _)]
  simp [Except.map, Uncertainty.to_absolute_precision]

theorem Measure.mul_eq (a b : Measure) :
    Measure.mul a b =
      .ok { value := a.value * b.value
            uncertainty :=
              { low := (a.uncertainty.to_relative a.value).low +
                  (b.uncertainty.to_relative b.value).low
                high := (a.uncertainty.to_relative a.value).high +
                  (b.uncertainty.to_relative b.value).high
                precision := max a.uncertainty.precision b.uncertainty.precision
                variant := .Relative } } := by
  unfold Measure.mul
  rw [Uncertainty.mul_rel_rel _ _ (Uncertainty.to_relative_variant _ _)
    (Uncertainty.to_relative_variant _ _)]
  simp [Except.map, Uncertainty.to_relative_precision]

theorem Measure.div_eq (a b : Measure) :
    Measure.div a b =
      .ok { value := a.value / b.value
            uncertainty :=
              { low := (a.uncertainty.to_relative a.value).low +
                  (b.uncertainty.to_relative b.value).low
                high := (a.uncertainty.to_relative a.value).high +
                  (b.uncertainty.to_relative b.value).high
                precision := max a.uncertainty.precision b.uncertainty.precision
                variant := .Relative } } := by
  unfold Measure.div
  rw [Uncertainty.mul_rel_rel _ _ (Uncertainty.to_relative_variant _ _)
    (Uncertainty.to_relative_variant _ _)]
  simp [Except.map, Uncertainty.to_relative_precision]

/-! ### IEEE-flavoured model for the division-by-zero claim

`F64` extends the rationals with the `f64` special values `inf`, `neginf` and
`nan` (signed zero is not distinguished: every finite value is a rational).
The arithmetic below follows the IEEE 754 rules for those special values, which
is exactly what Rust `f64` arithmetic does; it is used to settle the claim
about `to_relative` at associated value `0`, where the exact-rational model
cannot express the source's behaviour. -/

inductive F64 where
  | nan : F64
  | inf : F64
  | neginf : F64
  | fin : ℚ → F64
deriving DecidableEq

/-- IEEE absolute value: `|nan| = nan`, `|±inf| = inf`, finite as usual. -/
def F64.abs : F64 → F64
  | .nan => .nan
  | .inf => .inf
  | .neginf => .inf
  | .fin q => .fin |q|

/-- IEEE subtraction restricted to this carrier (`inf - inf = nan`, etc.). -/
def F64.sub : F64 → F64 → F64
  | .nan, _ => .nan
  | _, .nan => .nan
  | .inf, .inf => .nan
  | .inf, .neginf => .inf
  | .inf, .fin _ => .inf
  | .neginf, .inf => .neginf
  | .neginf, .neginf => .nan
  | .neginf, .fin _ => .neginf
  | .fin _, .inf => .neginf
  | .fin _, .neginf => .inf
  | .fin a, .fin b => .fin (a - b)

/-- IEEE division on this carrier: `x / 0` is `±inf` for finite nonzero `x`
(zero here is unsigned, standing for `+0.0`), `0 / 0 = nan`, `±inf / ±inf = nan`,
finite `/ ±inf` is (a signless) `0`. -/
def F64.div : F64 → F64 → F64
  | .nan, _ => .nan
  | _, .nan => .nan
  | .inf, .inf => .nan
  | .inf, .neginf => .nan
  | .neginf, .inf => .nan
  | .neginf, .neginf => .nan
  | .inf, .fin b => if b < 0 then .neginf else .inf
  | .neginf, .fin b => if b < 0 then .inf else .neginf
  | .fin _, .inf => .fin 0
  | .fin _, .neginf => .fin 0
  | .fin a, .fin b =>
      if b = 0 then (if a = 0 then .nan else if 0 < a then .inf else .neginf)
      else .fin (a / b)

/-- IEEE multiplication on this carrier (`±inf * 0 = nan`, etc.). -/
def F64.mul : F64 → F64 → F64
  | .nan, _ => .nan
  | _, .nan => .nan
  | .inf, .inf => .inf
  | .inf, .neginf => .neginf
  | .neginf, .inf => .neginf
  | .neginf, .neginf => .inf
  | .inf, .fin b => if b = 0 then .nan else if 0 < b then .inf else .neginf
  | .neginf, .fin b => if b = 0 then .nan else if 0 < b then .neginf else .inf
  | .fin a, .inf => if a = 0 then .nan else if 0 < a then .inf else .neginf
  | .fin a, .neginf => if a = 0 then .nan else if 0 < a then .neginf else .inf
  | .fin a, .fin b => .fin (a * b)

/-- `Uncertainty` with its `f64` fields modelled by `F64` instead of `ℚ`. -/
structure UncertaintyF where
  low : F64
  high : F64
  precision : Nat
  variant : UncertaintyVariant
deriving DecidableEq

/-- `Uncertainty::to_relative` re-embedded over `F64`: for the Absolute variant
the magnitudes become `(m - value.abs()).abs() / value.abs() * 100.` evaluated
with IEEE semantics; the Relative variant is returned unchanged. -/
def UncertaintyF.to_relative (self : UncertaintyF) (value : F64) : UncertaintyF :=
  match self.variant with
  | .Absolute =>
      { self with
        low := ((self.low.sub value.abs).abs.div value.abs).mul (F64.fin 100)
        high := ((self.high.sub value.abs).abs.div value.abs).mul (F64.fin 100)
        variant := .Relative }
  | .Relative => self

theorem containsStr_addPanicMsg_fst (a b : Uncertainty) :
    containsStr a.variant.name (Uncertainty.addPanicMsg a b) = true := by
  unfold containsStr Uncertainty.addPanicMsg Uncertainty.debugFmt
  simp only [String.data_append, List.append_assoc]
  repeat first
  | exact hasSeg_self_append _ _
  | apply hasSeg_append_left

theorem containsStr_addPanicMsg_snd (a b : Uncertainty) :
    containsStr b.variant.name (Uncertainty.addPanicMsg a b) = true := by
  unfold containsStr Uncertainty.addPanicMsg Uncertainty.debugFmt
  simp only [String.data_append, List.append_assoc]
  repeat first
  | exact hasSeg_self_append _ _
  | apply hasSeg_append_left

/-! ### The claims -/

/-- Claim C1 (code evaluated at the failing input): the spec says
`to_relative` turns `Absolute(m, p)` into `Relative(m / |v| * 100, p)`, but the
source computes `(m - |v|).abs() / |v| * 100`.  At `Absolute(0.1)` with
associated value `2.91` the code yields `28100/291 ≈ 96.56 %`, not the
`m / |v| * 100 = 1000/291 ≈ 3.44 %` the spec (and its worked example) state. -/
theorem c1_to_relative_failing_input :
    (Uncertainty.symmetric_abs (1/10)).to_relative (291/100) =
      { low := 28100/291, high := 28100/291, precision := 5, variant := .Relative } ∧
    ¬ ((28100 : ℚ)/291 = (1/10) / |(291/100 : ℚ)| * 100) := by
  constructor
  · norm_num [Uncertainty.to_relative, Uncertainty.symmetric_abs, Uncertainty.null,
      DEFAULT_PRECISION, abs_of_nonneg]
  · norm_num [abs_of_nonneg]

/-- Claim C2 counterexample: the claim says the precision of `a * b` is
`min(a.precision, b.precision)`, but `impl Mul for Uncertainty` takes the
`max`.  For operands with Relative uncertainty and precisions `1` and `3` the
product's precision is `3`, not `min 1 3 = 1`. -/
theorem c2_counterexample :
    Measure.mul (((Measure.scalar 1).with_rel_err 1).with_precision 1)
        (((Measure.scalar 1).with_rel_err 1).with_precision 3) =
      .ok { value := 1,
            uncertainty := { low := 2, high := 2, precision := 3, variant := .Relative } } ∧
    (3 : Nat) ≠ min 1 3 := by
  constructor
  · norm_num [Measure.mul, Measure.scalar, Measure.with_rel_err, Measure.with_precision,
      Uncertainty.symmetric_rel, Uncertainty.with_precision, Uncertainty.null,
      Uncertainty.to_relative, Uncertainty.mul, Except.map, abs_of_nonneg]
  · decide

/-- Claim C2 as amended: for every pair of Measures `a` and `b`, the uncertainty
of `a * b` and of `a / b` is of Relative variant, its magnitudes are the sums of
the operands' magnitudes after each is converted to Relative with its own
operand's value, and its precision is `max(a.precision, b.precision)` (the
claim said `min`; the source takes the `max` for the multiplicative rule). -/
theorem c2_mul_div_relative_propagation (a b : Measure) :
    ∃ u : Uncertainty,
      Measure.mul a b = .ok { value := a.value * b.value, uncertainty := u } ∧
      Measure.div a b = .ok { value := a.value / b.value, uncertainty := u } ∧
      u.variant = .Relative ∧
      u.low = (a.uncertainty.to_relative a.value).low +
        (b.uncertainty.to_relative b.value).low ∧
      u.high = (a.uncertainty.to_relative a.value).high +
        (b.uncertainty.to_relative b.value).high ∧
      u.precision = max a.uncertainty.precision b.uncertainty.precision :=
  ⟨_, Measure.mul_eq a b, Measure.div_eq a b, rfl, rfl, rfl, rfl⟩

/-- Claim C3 (code evaluated at the failing input): the spec's round-trip
`to_relative(to_absolute(u, v), v) = u` fails in the source because
`to_relative` subtracts `|v|` before dividing: starting from
`Relative(10)` with `v = 2`, `to_absolute` gives `Absolute(0.2)` and
`to_relative` then returns `Relative(90)` (in general `Relative(|m - 100|)`),
not the original `Relative(10)`. -/
theorem c3_round_trip_failing_input :
    ((Uncertainty.symmetric_rel 10).to_absolute 2).to_relative 2 =
      { low := 90, high := 90, precision := 5, variant := .Relative } ∧
    ({ low := 90, high := 90, precision := 5, variant := .Relative } : Uncertainty) ≠
      Uncertainty.symmetric_rel 10 := by
  constructor
  · norm_num [Uncertainty.to_relative, Uncertainty.to_absolute, Uncertainty.symmetric_rel,
      Uncertainty.null, DEFAULT_PRECISION, abs_of_nonneg]
  · norm_num [Uncertainty.symmetric_rel, Uncertainty.null, abs_of_nonneg]

/-- Claim C4 counterexample: the claim says the interval-resolving operation
returns `(value - low, value + high)`, i.e. `(8, 12)` for value `10` with
absolute error `2`, but `resolve_high_low_limits` returns the HIGH limit first:
`(value + high, value - low) = (12, 8)`. -/
theorem c4_counterexample :
    ((Measure.scalar 10).with_abs_err 2).resolve_high_low_limits = (12, 8) ∧
    ((Measure.scalar 10).with_abs_err 2).resolve_high_low_limits ≠ (8, 12) := by
  constructor
  · norm_num [Measure.resolve_high_low_limits, Measure.scalar, Measure.with_abs_err,
      Uncertainty.to_absolute, Uncertainty.symmetric_abs, Uncertainty.null, abs_of_nonneg]
  · norm_num [Measure.resolve_high_low_limits, Measure.scalar, Measure.with_abs_err,
      Uncertainty.to_absolute, Uncertainty.symmetric_abs, Uncertainty.null, abs_of_nonneg,
      Prod.ext_iff]

/-- Claim C4 as amended: for every Measure, `resolve_high_low_limits` returns
`(value + high, value - low)` — high limit first — where low and high are the
magnitudes of the uncertainty converted to Absolute with this Measure's own
value; in particular for value `10.0` with absolute error `2.0` it returns
`(12.0, 8.0)` (the claim stated the opposite order). -/
theorem c4_resolve_limits_order :
    (∀ m : Measure,
        m.resolve_high_low_limits =
          (m.value + (m.uncertainty.to_absolute m.value).high,
           m.value - (m.uncertainty.to_absolute m.value).low)) ∧
    ((Measure.scalar 10).with_abs_err 2).resolve_high_low_limits = (12, 8) := by
  constructor
  · intro m; rfl
  · norm_num [Measure.resolve_high_low_limits, Measure.scalar, Measure.with_abs_err,
      Uncertainty.to_absolute, Uncertainty.symmetric_abs, Uncertainty.null, abs_of_nonneg]

/-- Claim C5: for every pair of Measures `a` and `b`, the uncertainty of
`a + b` and of `a - b` is of Absolute variant regardless of the operands'
original variants, and its magnitudes are the sums of the two operands'
magnitudes after each is converted to Absolute with its own operand's value. -/
theorem c5_add_sub_absolute_propagation (a b : Measure) :
    ∃ u : Uncertainty,
      Measure.add a b = .ok { value := a.value + b.value, uncertainty := u } ∧
      Measure.sub a b = .ok { value := a.value - b.value, uncertainty := u } ∧
      u.variant = .Absolute ∧
      u.low = (a.uncertainty.to_absolute a.value).low +
        (b.uncertainty.to_absolute b.value).low ∧
      u.high = (a.uncertainty.to_absolute a.value).high +
        (b.uncertainty.to_absolute b.value).high :=
  ⟨_, Measure.add_eq a b, Measure.sub_eq a b, rfl, rfl, rfl⟩

/-- Claim C6: for every pair of Measures `a` and `b`, the precision of the
uncertainty of `a + b` and of `a - b` is `min(a.precision, b.precision)`. -/
theorem c6_add_sub_precision_min (a b : Measure) :
    ∃ m1 m2 : Measure,
      Measure.add a b = .ok m1 ∧ Measure.sub a b = .ok m2 ∧
      m1.uncertainty.precision = min a.uncertainty.precision b.uncertainty.precision ∧
      m2.uncertainty.precision = min a.uncertainty.precision b.uncertainty.precision :=
  ⟨_, _, Measure.add_eq a b, Measure.sub_eq a b, rfl, rfl⟩

/-- Claim C7 counterexample: the claim says every direct Absolute-with-Relative
combination fails with a message identifying BOTH operand uncertainty kinds,
but the multiplicative combination aborts with a fixed message that names
neither operand's kind (it contains neither "Absolute" nor "Relative"). -/
theorem c7_counterexample :
    Uncertainty.mul (Uncertainty.symmetric_abs 1) (Uncertainty.symmetric_rel 2) =
      .error Uncertainty.mulPanicMsg ∧
    containsStr "Absolute" Uncertainty.mulPanicMsg = false ∧
    containsStr "Relative" Uncertainty.mulPanicMsg = false := by
  refine ⟨rfl, ?_, ?_⟩ <;> decide

/-- Claim C7 as amended: directly combining an Absolute-variant with a
Relative-variant Uncertainty always fails fatally under both the additive and
the multiplicative combination; the additive failure message identifies both
operand uncertainty kinds (it interpolates both operands' debug forms,
including their variant names), while the multiplicative failure message is a
fixed string that identifies neither. -/
theorem c7_mixed_combination_fatal (a b : Uncertainty)
    (ha : a.variant = .Absolute) (hb : b.variant = .Relative) :
    Uncertainty.add a b = .error (Uncertainty.addPanicMsg a b) ∧
    Uncertainty.mul a b = .error Uncertainty.mulPanicMsg ∧
    containsStr a.variant.name (Uncertainty.addPanicMsg a b) = true ∧
    containsStr b.variant.name (Uncertainty.addPanicMsg a b) = true ∧
    containsStr "Absolute" Uncertainty.mulPanicMsg = false ∧
    containsStr "Relative" Uncertainty.mulPanicMsg = false := by
  refine ⟨?_, ?_, containsStr_addPanicMsg_fst a b, containsStr_addPanicMsg_snd a b, ?_, ?_⟩
  · unfold Uncertainty.add
    rw [ha, hb]
  · unfold Uncertainty.mul
    rw [ha, hb]
  · decide
  · decide

/-- Witness for claim C7's amended theorem at `Absolute(1) + Relative(2)`. -/
theorem c7_witness :
    Uncertainty.add (Uncertainty.symmetric_abs 1) (Uncertainty.symmetric_rel 2) =
      .error (Uncertainty.addPanicMsg (Uncertainty.symmetric_abs 1)
        (Uncertainty.symmetric_rel 2)) ∧
    Uncertainty.mul (Uncertainty.symmetric_abs 1) (Uncertainty.symmetric_rel 2) =
      .error Uncertainty.mulPanicMsg ∧
    containsStr (Uncertainty.symmetric_abs 1).variant.name
      (Uncertainty.addPanicMsg (Uncertainty.symmetric_abs 1)
        (Uncertainty.symmetric_rel 2)) = true ∧
    containsStr (Uncertainty.symmetric_rel 2).variant.name
      (Uncertainty.addPanicMsg (Uncertainty.symmetric_abs 1)
        (Uncertainty.symmetric_rel 2)) = true ∧
    containsStr "Absolute" Uncertainty.mulPanicMsg = false ∧
    containsStr "Relative" Uncertainty.mulPanicMsg = false :=
  c7_mixed_combination_fatal (Uncertainty.symmetric_abs 1) (Uncertainty.symmetric_rel 2)
    rfl rfl

/-- Claim C8: `to_absolute` returns an Absolute-variant result for every input
and associated value `v`: an Absolute input is returned unchanged, and a
Relative input with magnitudes `m` and precision `p` becomes Absolute with
magnitudes `m / 100 * |v|` and the same precision. -/
theorem c8_to_absolute_conversion (low high : ℚ) (p : Nat) (v : ℚ) :
    Uncertainty.to_absolute ⟨low, high, p, .Absolute⟩ v = ⟨low, high, p, .Absolute⟩ ∧
    Uncertainty.to_absolute ⟨low, high, p, .Relative⟩ v =
      ⟨low / 100 * |v|, high / 100 * |v|, p, .Absolute⟩ ∧
    (Uncertainty.to_absolute ⟨low, high, p, .Absolute⟩ v).variant = .Absolute ∧
    (Uncertainty.to_absolute ⟨low, high, p, .Relative⟩ v).variant = .Absolute :=
  ⟨rfl, rfl, rfl, rfl⟩

/-- Claim C9 counterexample: the claim says `to_relative` of an Absolute
uncertainty at associated value `0` either fails fatally or produces NaN, but
in the IEEE model the source expression `(m - |0|).abs() / |0| * 100` with
`m = 0.1` evaluates to `+inf` — not NaN, and the function has no fatal path. -/
theorem c9_counterexample :
    UncertaintyF.to_relative ⟨F64.fin (1/10), F64.fin (1/10), 5, .Absolute⟩ (F64.fin 0) =
      ⟨F64.inf, F64.inf, 5, .Relative⟩ ∧ F64.inf ≠ F64.nan := by
  constructor
  · norm_num [UncertaintyF.to_relative, F64.abs, F64.sub, F64.div, F64.mul]
  · simp

/-- Claim C9 as amended: for every Absolute-variant Uncertainty with finite
magnitudes, `to_relative` at associated value `0` does not fail: each magnitude
becomes `+inf` when the stored magnitude is nonzero and `NaN` when it is zero —
in no case an ordinary finite relative magnitude (the claim's "fails fatally or
produces NaN" disjunction is wrong for the nonzero case, which yields `+inf`). -/
theorem c9_to_relative_zero_value (ql qh : ℚ) (p : Nat) :
    UncertaintyF.to_relative ⟨F64.fin ql, F64.fin qh, p, .Absolute⟩ (F64.fin 0) =
      ⟨if ql = 0 then F64.nan else F64.inf, if qh = 0 then F64.nan else F64.inf,
        p, .Relative⟩ := by
  simp only [UncertaintyF.to_relative, F64.abs, F64.sub, F64.div, F64.mul]
  norm_num [abs_eq_zero, abs_nonneg, abs_pos, sub_zero]
  constructor
  · by_cases hq : ql = 0 <;> simp [hq, abs_pos, F64.mul]
  · by_cases hh : qh = 0 <;> simp [hh, abs_pos, F64.mul]

/-- Claim C10: `with_abs_err` and `with_rel_err` keep the value but replace the
whole uncertainty with a fresh symmetric one whose precision is the default
`5`; in particular a precision previously set with `with_precision` is
discarded, so `scalar(x).with_precision(1).with_abs_err(e)` has precision `5`. -/
theorem c10_with_err_resets_precision (m : Measure) (e x : ℚ) :
    (m.with_abs_err e).value = m.value ∧
    (m.with_abs_err e).uncertainty = Uncertainty.symmetric_abs e ∧
    (m.with_abs_err e).uncertainty.precision = DEFAULT_PRECISION ∧
    (m.with_rel_err e).value = m.value ∧
    (m.with_rel_err e).uncertainty = Uncertainty.symmetric_rel e ∧
    (m.with_rel_err e).uncertainty.precision = DEFAULT_PRECISION ∧
    DEFAULT_PRECISION = 5 ∧
    (((Measure.scalar x).with_precision 1).with_abs_err e).uncertainty.precision = 5 :=
  ⟨rfl, rfl, rfl, rfl, rfl, rfl, rfl, rfl⟩

end PlusMinus
